import Mathlib

/-!
Shallow embedding of the flow-graph builder of `app.py` (the Sankey-diagram
data preparation `prepare_sankey_data`, lines 142-193) and of the violin-plot
sampling step (line 93), together with theorems settling the specification
claims about them.

Modelling conventions:
* `Work_Hours` values are rationals (`ℚ`), `Stress_Level` values are strings.
* The worklife dataframe is a structure holding the base records plus the two
  derived columns that `prepare_sankey_data` writes into the shared dataframe
  (`Work_Hours_Grouped`, `Stress_Level_Sorted`); a derived column is `none`
  until the builder has written it.  A categorical cell is modelled by its
  integer code (`Option Nat`, `none` standing for pandas `NaN`).
* `pd.cut(x, bins, labels, right=True)` assigns to `x` the index `i` of the
  first interval `(bins[i], bins[i+1]]` containing it, `none` otherwise
  (the default `include_lowest=False` leaves the very first bound excluded).
* `pd.Categorical(col, categories)` maps a cell to the index of its value in
  the category list, `none` when the value is not among the categories.
* `groupby([src, tgt]).size()` on two categorical columns uses the pandas
  default `observed=False`: the result has one row per pair of categories in
  category order (the full cross product), its count being the number of
  records carrying exactly that pair; records with a `NaN` key count nowhere.
* Python exceptions (`KeyError`, `ValueError`) are `Except.error`.
-/

/-- The worklife dataframe: one `(Work_Hours, Stress_Level)` pair per record,
plus the two derived columns `prepare_sankey_data` writes into it. -/
structure WorklifeDF where
  rows : List (ℚ × String)
  work_hours_grouped : Option (List (Option Nat)) := none
  stress_level_sorted : Option (List (Option Nat)) := none
deriving DecidableEq

/-- Bin edges from `bins = [0, 10, ..., 100]` (line 153). -/
def bins : List ℚ := [0, 10, 20, 30, 40, 50, 60, 70, 80, 90, 100]

/-- Display labels of the ten work-hour buckets (line 154). -/
def bin_labels : List String :=
  ["0-10", "11-20", "21-30", "31-40", "41-50", "51-60", "61-70", "71-80", "81-90", "91-100"]

/-- The fixed stress-category order `['Low', 'Medium', 'High']` (line 142). -/
def stress_level_order : List String := ["Low", "Medium", "High"]

/-- The stress node labels `f"{level} Stress"` (line 143). -/
def stress_level_labels : List String := stress_level_order.map (fun l => l ++ " Stress")

/-- The node color map `stress_color_mapping` (lines 145-149), as an
association list keyed by the stress node labels. -/
def stress_color_mapping : List (String × String) :=
  [("Low Stress", "#7ED957"), ("Medium Stress", "#FFC107"), ("High Stress", "#FF4C4C")]

/-- `pd.cut` with `right=True`: index of the first interval
`(edges[i], edges[i+1]]` containing `x`, `none` when no interval does. -/
def cutIndex : List ℚ → ℚ → Option Nat
  | lo :: hi :: rest, x =>
      if lo < x ∧ x ≤ hi then some 0 else (cutIndex (hi :: rest) x).map (· + 1)
  | _, _ => none

/-- `pd.Categorical(v, categories=cats).codes`: index of `v` in `cats`,
`none` (pandas `NaN`, code `-1`) when `v` is not a category. -/
def catCode : List String → String → Option Nat
  | [], _ => none
  | c :: cs, v => if v = c then some 0 else (catCode cs v).map (· + 1)

/-- Python `dict` lookup on an association list (`None`-free keys). -/
def dictGet : List (String × String) → String → Option String
  | [], _ => none
  | (k, c) :: rest, v => if v = k then some c else dictGet rest v

/-- Content of the derived column `Work_Hours_Grouped` (line 155): the
`pd.cut` code of each record's `Work_Hours` value. -/
def srcCol (df : WorklifeDF) : List (Option Nat) :=
  df.rows.map (fun r => cutIndex bins r.1)

/-- Content of the derived column `Stress_Level_Sorted` (line 167): the
categorical code of each record's `Stress_Level` value. -/
def tgtCol (df : WorklifeDF) : List (Option Nat) :=
  df.rows.map (fun r => catCode stress_level_order r.2)

/-- Lines 155 and 166-167: write the derived columns `Work_Hours_Grouped`
(codes of `pd.cut` over `Work_Hours`) and `Stress_Level_Sorted` (codes of the
stress categorical) into the shared dataframe. -/
def updateDF (df : WorklifeDF) : WorklifeDF :=
  { df with
    work_hours_grouped := some (srcCol df),
    stress_level_sorted := some (tgtCol df) }

/-- Number of records whose pair of category codes is exactly `(b, s)`. -/
def pairCount (src tgt : List (Option Nat)) (b s : Nat) : Nat :=
  (src.zip tgt).countP (fun p => decide (p.1 = some b ∧ p.2 = some s))

/-- Line 169: `groupby([source_col, 'Stress_Level_Sorted']).size()` on two
categorical columns (pandas default `observed=False`): one row `(b, s, count)`
per pair of category codes, in category order, counts of absent pairs being 0;
records with a `NaN` key in either column are dropped from every count. -/
def value_counts (src tgt : List (Option Nat)) : List (Nat × Nat × Nat) :=
  ((List.range bin_labels.length).map (fun b =>
    (List.range stress_level_order.length).map (fun s => (b, s, pairCount src tgt b s)))).flatten

/-- Lines 173-180: the link color chosen by the `if/elif/else` chain on the
stress category of a group row (`else` catches everything that is not
`'Low'` or `'Medium'`). -/
def linkColor (s : Nat) : String :=
  let stress := stress_level_order.getD s ""
  if stress = "Low" then "rgba(126,217,87,0.5)"
  else if stress = "Medium" then "rgba(255,193,7,0.5)"
  else "rgba(255,76,76,0.5)"

/-- Line 183: `[stress_color_mapping[label] for label in stress_level_labels]`;
the first label missing from the dictionary raises a `KeyError`. -/
def colorsFor : List String → List (String × String) → Except String (List String)
  | [], _ => .ok []
  | l :: ls, cm =>
      match dictGet cm l with
      | none => .error ("KeyError: " ++ l)
      | some c =>
          match colorsFor ls cm with
          | .error e => .error e
          | .ok cs => .ok (c :: cs)

/-- The dictionary returned by `prepare_sankey_data` (lines 186-193). -/
structure SankeyData where
  labels : List String
  node_colors : List String
  source : List Nat
  target : List Nat
  value : List Nat
  link_colors : List String
deriving DecidableEq

/-- `prepare_sankey_data(grouped=True)` (lines 151-193).  The function both
mutates the shared worklife dataframe (adding the two derived columns) and
returns the node/edge dictionary; the color-map lookup of line 183 can raise.
The color map is a parameter so that configuration mismatches are statable;
the program always passes `stress_color_mapping`. -/
def prepare_sankey_data (df : WorklifeDF) (cm : List (String × String)) :
    WorklifeDF × Except String SankeyData :=
  let df' := updateDF df
  let src := df'.work_hours_grouped.getD []
  let tgt := df'.stress_level_sorted.getD []
  let vc := value_counts src tgt
  let work_hours_labels := bin_labels.map (fun l => l ++ " Hours")
  match colorsFor stress_level_labels cm with
  | .error e => (df', .error e)
  | .ok scs =>
      (df', .ok
        { labels := work_hours_labels ++ stress_level_labels
          node_colors := List.replicate work_hours_labels.length "#4A90E2" ++ scs
          source := vc.map (fun g => g.1)
          target := vc.map (fun g => g.2.1 + bin_labels.length)
          value := vc.map (fun g => g.2.2)
          link_colors := vc.map (fun g => linkColor g.2.1) })

/-- `DataFrame.sample(n, replace=False)` (pandas): raises a `ValueError` when
`n` exceeds the population size, otherwise returns exactly `n` of the rows
drawn without replacement.  The seeded permutation (`random_state=42`) is
abstracted as a selection of the first `n` rows, which is faithful for the
row-count and error behaviour the claims are about. -/
def sample {α : Type} (rows : List α) (n : Nat) : Except String (List α) :=
  if rows.length < n then
    .error "Cannot take a larger sample than population when replace is False"
  else .ok (rows.take n)

/-- Line 93: `sampled_health_df = health_df.sample(n=3500, random_state=42)`. -/
def sampled_health_df {α : Type} (health_df : List α) : Except String (List α) :=
  sample health_df 3500

/-! ### Basic facts about the embedded operations -/

/-- A code produced by `cutIndex` addresses one of the `edges.length - 1`
intervals. -/
lemma cutIndex_lt {l : List ℚ} {x : ℚ} {k : ℕ} (h : cutIndex l x = some k) :
    k + 1 < l.length := by
  induction l generalizing k with
  | nil => simp [cutIndex] at h
  | cons lo rest ih =>
    cases rest with
    | nil => simp [cutIndex] at h
    | cons hi rest2 =>
      rw [cutIndex] at h
      split_ifs at h with hif
      · simp only [Option.some.injEq] at h
        subst h
        simp
      · obtain ⟨j, hj, rfl⟩ := Option.map_eq_some'.1 h
        have hlen := ih hj
        simp only [List.length_cons] at hlen ⊢
        omega

/-- A categorical code addresses one of the categories. -/
lemma catCode_lt {cats : List String} {v : String} {k : ℕ}
    (h : catCode cats v = some k) : k < cats.length := by
  induction cats generalizing k with
  | nil => simp [catCode] at h
  | cons c cs ih =>
    rw [catCode] at h
    split_ifs at h with hv
    · simp only [Option.some.injEq] at h
      subst h
      simp
    · obtain ⟨j, hj, rfl⟩ := Option.map_eq_some'.1 h
      have hlen := ih hj
      simp only [List.length_cons]
      omega

/-- A value listed among the categories receives a code. -/
lemma catCode_isSome {cats : List String} {v : String} (h : v ∈ cats) :
    (catCode cats v).isSome = true := by
  induction cats with
  | nil => simp at h
  | cons c cs ih =>
    rw [catCode]
    split_ifs with hv
    · rfl
    · have hmem : v ∈ cs := by
        rcases List.mem_cons.1 h with h1 | h1
        · exact absurd h1 hv
        · exact h1
      cases hcc : catCode cs v with
      | none => rw [hcc] at ih; exact absurd (ih hmem) (by simp)
      | some j => simp

/-- The color comprehension of line 183 returns one color per label when it
succeeds. -/
lemma colorsFor_length {ls : List String} {cm : List (String × String)}
    {cs : List String} (h : colorsFor ls cm = .ok cs) : cs.length = ls.length := by
  induction ls generalizing cs with
  | nil =>
    rw [colorsFor] at h
    simp only [Except.ok.injEq] at h
    subst h
    rfl
  | cons l ls ih =>
    rw [colorsFor] at h
    cases hd : dictGet cm l with
    | none => rw [hd] at h; exact absurd h (by simp)
    | some c =>
      rw [hd] at h
      cases hc2 : colorsFor ls cm with
      | error e => rw [hc2] at h; exact absurd h (by simp)
      | ok cs2 =>
        rw [hc2] at h
        simp only [Except.ok.injEq] at h
        subst h
        simp [ih hc2]

/-- The color comprehension of line 183 raises a `KeyError` as soon as some
label is missing from the dictionary. -/
lemma colorsFor_missing {ls : List String} {cm : List (String × String)}
    (h : ∃ x ∈ ls, dictGet cm x = none) : ∃ e, colorsFor ls cm = .error e := by
  induction ls with
  | nil => simp at h
  | cons l ls ih =>
    rw [colorsFor]
    cases hd : dictGet cm l with
    | none => exact ⟨"KeyError: " ++ l, rfl⟩
    | some c =>
      obtain ⟨x, hx, hxn⟩ := h
      have hmem : x ∈ ls := by
        rcases List.mem_cons.1 hx with h1 | h1
        · subst h1; rw [hd] at hxn; exact absurd hxn (by simp)
        · exact h1
      obtain ⟨e, he⟩ := ih ⟨x, hmem, hxn⟩
      rw [he]
      exact ⟨e, rfl⟩

/-- The dataframe state after a call is the dataframe with the two derived
columns written, whether or not the color lookup succeeded. -/
lemma prepare_fst (df : WorklifeDF) (cm : List (String × String)) :
    (prepare_sankey_data df cm).1 = updateDF df := by
  cases hc : colorsFor stress_level_labels cm <;>
    simp [prepare_sankey_data, hc]

/-- Inversion of a successful call: the color lookup succeeded and every field
of the returned dictionary is determined by the record set. -/
lemma prepare_ok_inv {df : WorklifeDF} {cm : List (String × String)}
    {d : SankeyData} (h : (prepare_sankey_data df cm).2 = .ok d) :
    ∃ scs, colorsFor stress_level_labels cm = Except.ok scs ∧
      scs.length = stress_level_order.length ∧
      d = { labels := bin_labels.map (fun l => l ++ " Hours") ++ stress_level_labels
            node_colors := List.replicate bin_labels.length "#4A90E2" ++ scs
            source := (value_counts (srcCol df) (tgtCol df)).map (fun g => g.1)
            target := (value_counts (srcCol df) (tgtCol df)).map
              (fun g => g.2.1 + bin_labels.length)
            value := (value_counts (srcCol df) (tgtCol df)).map (fun g => g.2.2)
            link_colors := (value_counts (srcCol df) (tgtCol df)).map
              (fun g => linkColor g.2.1) } := by
  cases hc : colorsFor stress_level_labels cm with
  | error e =>
    have hbad : (prepare_sankey_data df cm).2 = .error e := by
      simp [prepare_sankey_data, hc]
    rw [hbad] at h
    exact absurd h (by simp)
  | ok scs =>
    have hlen : scs.length = stress_level_order.length := by
      have := colorsFor_length hc
      simpa [stress_level_labels] using this
    refine ⟨scs, rfl, hlen, ?_⟩
    have hgood : (prepare_sankey_data df cm).2 = .ok
        { labels := bin_labels.map (fun l => l ++ " Hours") ++ stress_level_labels
          node_colors := List.replicate bin_labels.length "#4A90E2" ++ scs
          source := (value_counts (srcCol df) (tgtCol df)).map (fun g => g.1)
          target := (value_counts (srcCol df) (tgtCol df)).map
            (fun g => g.2.1 + bin_labels.length)
          value := (value_counts (srcCol df) (tgtCol df)).map (fun g => g.2.2)
          link_colors := (value_counts (srcCol df) (tgtCol df)).map
            (fun g => linkColor g.2.1) } := by
      simp [prepare_sankey_data, hc, updateDF]
    rw [hgood] at h
    simp only [Except.ok.injEq] at h
    exact h.symm

/-- Membership in the grouped table: exactly the triples indexed by a bucket
code and a stress code, carrying the matching record count. -/
lemma mem_value_counts {src tgt : List (Option Nat)} {g : Nat × Nat × Nat} :
    g ∈ value_counts src tgt ↔
      g.1 < bin_labels.length ∧ g.2.1 < stress_level_order.length ∧
        g.2.2 = pairCount src tgt g.1 g.2.1 := by
  rcases g with ⟨b, s, c⟩
  unfold value_counts
  simp only [List.mem_flatten, List.mem_map, List.mem_range]
  constructor
  · rintro ⟨l, ⟨b0, hb0, rfl⟩, hmem⟩
    obtain ⟨s0, hs0, hg⟩ := List.mem_map.1 hmem
    obtain ⟨rfl, rfl, rfl⟩ := Prod.mk.injEq .. ▸ hg
    exact ⟨hb0, List.mem_range.1 hs0, rfl⟩
  · rintro ⟨hb, hs, rfl⟩
    exact ⟨_, ⟨b, hb, rfl⟩, List.mem_map.2 ⟨s, List.mem_range.2 hs, rfl⟩⟩

/-- A sum over `List.range` is the corresponding `Finset.range` sum. -/
lemma sum_map_range (n : ℕ) (f : ℕ → ℕ) :
    ((List.range n).map f).sum = ∑ i ∈ Finset.range n, f i := by
  induction n with
  | zero => simp
  | succ n ih =>
    rw [List.range_succ, List.map_append, List.sum_append, Finset.sum_range_succ, ih]
    simp

/-- One record contributes `1` to exactly one cell of the cross-product table
when both of its codes are defined, and to no cell otherwise. -/
lemma indicator_pair (nb ns : ℕ) (o1 o2 : Option ℕ)
    (h1 : ∀ k, o1 = some k → k < nb) (h2 : ∀ k, o2 = some k → k < ns) :
    (∑ b ∈ Finset.range nb, ∑ s ∈ Finset.range ns,
        if o1 = some b ∧ o2 = some s then 1 else 0) =
      if o1.isSome = true ∧ o2.isSome = true then 1 else 0 := by
  cases o1 with
  | none => simp
  | some k =>
    cases o2 with
    | none => simp
    | some m =>
      have hk := h1 k rfl
      have hm := h2 m rfl
      have hinner : ∀ b, (∑ s ∈ Finset.range ns,
          if some k = some b ∧ some m = some s then (1 : ℕ) else 0) =
            if k = b then 1 else 0 := by
        intro b
        by_cases hb : k = b
        · subst hb
          simp [Finset.sum_ite_eq, Finset.mem_range, hm]
        · simp [hb]
      rw [Finset.sum_congr rfl (fun b _ => hinner b)]
      simp [Finset.sum_ite_eq, Finset.mem_range, hk]

/-- Summing the cross-product table of pair counts over all cells counts the
records whose two codes are both defined. -/
lemma sum_pairCount (nb ns : ℕ) (ps : List (Option ℕ × Option ℕ))
    (hb : ∀ p ∈ ps, ∀ k, p.1 = some k → k < nb)
    (hs : ∀ p ∈ ps, ∀ k, p.2 = some k → k < ns) :
    (∑ b ∈ Finset.range nb, ∑ s ∈ Finset.range ns,
        ps.countP (fun p => decide (p.1 = some b ∧ p.2 = some s))) =
      ps.countP (fun p => p.1.isSome && p.2.isSome) := by
  induction ps with
  | nil => simp
  | cons p ps ih =>
    have hbp := hb p (by simp)
    have hsp := hs p (by simp)
    have hb2 : ∀ q ∈ ps, ∀ k, q.1 = some k → k < nb :=
      fun q hq => hb q (by simp [hq])
    have hs2 : ∀ q ∈ ps, ∀ k, q.2 = some k → k < ns :=
      fun q hq => hs q (by simp [hq])
    simp only [List.countP_cons, decide_eq_true_eq, Bool.and_eq_true,
      Finset.sum_add_distrib]
    rw [ih hb2 hs2, indicator_pair nb ns p.1 p.2 hbp hsp]

/-- The sum of the `count` column of the grouped table, as a double sum. -/
lemma value_counts_sum (src tgt : List (Option ℕ)) :
    ((value_counts src tgt).map (fun g => g.2.2)).sum =
      ∑ b ∈ Finset.range bin_labels.length,
        ∑ s ∈ Finset.range stress_level_order.length, pairCount src tgt b s := by
  unfold value_counts
  rw [List.map_flatten, List.sum_flatten]
  simp only [List.map_map, Function.comp]
  rw [sum_map_range]
  refine Finset.sum_congr rfl (fun b _ => ?_)
  simp only [Function.comp_apply, List.map_map, Function.comp]
  rw [sum_map_range]
  simp

/-! ### Claim theorems -/

/-- C3 (code evaluated at the failing input): a record with `Work_Hours = 0`
is assigned to no bucket at all — `pd.cut` with `right=True` and the default
`include_lowest=False` makes the first interval `(0, 10]`, so the derived
`Work_Hours_Grouped` cell of such a record is `NaN` even though the first
bucket is labelled `"0-10"`; the claim's lower-bound-inclusive floor does not
hold on the code. -/
theorem cut_drops_zero_at_domain_floor :
    cutIndex bins 0 = none ∧
    (updateDF ⟨[(0, "Low")], none, none⟩).work_hours_grouped = some [none] ∧
    bin_labels.getD 0 "" = "0-10" :=
  ⟨rfl, rfl, rfl⟩

/-- C4: a record whose value lies exactly on a bucket's upper bound is
assigned to that bucket and not to the next one: each of the ten upper bin
edges `10, 20, ..., 100` is mapped to the index of its own bucket, e.g. value
`10` lands in bucket 0 (`"0-10"`), not bucket 1 (`"11-20"`). -/
theorem cut_upper_bound_inclusive :
    cutIndex bins 10 = some 0 ∧ cutIndex bins 20 = some 1 ∧
    cutIndex bins 30 = some 2 ∧ cutIndex bins 40 = some 3 ∧
    cutIndex bins 50 = some 4 ∧ cutIndex bins 60 = some 5 ∧
    cutIndex bins 70 = some 6 ∧ cutIndex bins 80 = some 7 ∧
    cutIndex bins 90 = some 8 ∧ cutIndex bins 100 = some 9 ∧
    bin_labels.getD 0 "" = "0-10" ∧ bin_labels.getD 1 "" = "11-20" :=
  ⟨rfl, rfl, rfl, rfl, rfl, rfl, rfl, rfl, rfl, rfl, rfl, rfl⟩

/-- C7 (counterexample): the builder is not free of side effects — on a
concrete one-record dataframe the worklife dataframe returned after the call
differs from the dataframe before the call (the derived columns have been
written into it). -/
theorem sankey_mutates_dataframe :
    (prepare_sankey_data ⟨[(5, "Low")], none, none⟩ stress_color_mapping).1 ≠
      ⟨[(5, "Low")], none, none⟩ := by
  decide

/-- C7 (amended): the builder leaves the values of the base `Work_Hours` and
`Stress_Level` columns unchanged, but it does mutate the shared worklife
dataframe, writing the two derived columns `Work_Hours_Grouped` and
`Stress_Level_Sorted` into it. -/
theorem sankey_writes_derived_columns (df : WorklifeDF)
    (cm : List (String × String)) :
    ((prepare_sankey_data df cm).1).rows = df.rows ∧
    ((prepare_sankey_data df cm).1).work_hours_grouped = some (srcCol df) ∧
    ((prepare_sankey_data df cm).1).stress_level_sorted = some (tgtCol df) := by
  simp [prepare_fst, updateDF]

/-- C8: calling the builder twice with identical inputs yields identical
results — the second call, run on the dataframe state the first call left
behind, returns the same node/edge dictionary (and the same state). -/
theorem sankey_second_call_identical (df : WorklifeDF)
    (cm : List (String × String)) :
    prepare_sankey_data ((prepare_sankey_data df cm).1) cm =
      prepare_sankey_data df cm := by
  rw [prepare_fst]
  rfl

/-- C9: if some category listed in the fixed order has no assigned color in
the category color map, the builder fails with a `KeyError` instead of
producing a node/edge result. -/
theorem sankey_missing_color_errors (df : WorklifeDF)
    (cm : List (String × String))
    (h : ∃ l ∈ stress_level_labels, dictGet cm l = none) :
    ∃ e, (prepare_sankey_data df cm).2 = .error e := by
  obtain ⟨e, he⟩ := colorsFor_missing h
  exact ⟨e, by simp [prepare_sankey_data, he]⟩

/-- C9 (witness): with the color map lacking an entry for `"High Stress"`,
the builder produces no `ok` result. -/
theorem sankey_missing_color_errors_witness :
    ((prepare_sankey_data ⟨[], none, none⟩
        [("Low Stress", "#7ED957"), ("Medium Stress", "#FFC107")]).2).isOk =
      false := by
  obtain ⟨e, he⟩ := sankey_missing_color_errors ⟨[], none, none⟩
    [("Low Stress", "#7ED957"), ("Medium Stress", "#FFC107")]
    ⟨"High Stress", by decide, by decide⟩
  rw [he]
  rfl

/-- C10: the violin-plot sampling draws exactly 3500 rows without
replacement, and raises the pandas `ValueError` whenever the health dataset
has fewer than 3500 rows. -/
theorem sample_requires_3500_rows {α : Type} (l : List α) :
    (l.length < 3500 → sampled_health_df l =
      .error "Cannot take a larger sample than population when replace is False") ∧
    (3500 ≤ l.length →
      ∃ out, sampled_health_df l = .ok out ∧ out.length = 3500) := by
  constructor
  · intro h
    unfold sampled_health_df sample
    rw [if_pos h]
  · intro h
    refine ⟨l.take 3500, ?_, ?_⟩
    · unfold sampled_health_df sample
      rw [if_neg (Nat.not_lt.2 h)]
    · simp only [List.length_take]
      omega

/-- C10 (witness): a 3499-row dataset raises the sampling error and a
3500-row dataset yields exactly 3500 sampled rows. -/
theorem sample_requires_3500_rows_witness :
    (List.replicate 3499 (0 : ℕ)).length < 3500 ∧
    sampled_health_df (List.replicate 3499 (0 : ℕ)) =
      .error "Cannot take a larger sample than population when replace is False" ∧
    (sampled_health_df (List.replicate 3500 (0 : ℕ))).map List.length =
      .ok 3500 := by
  have h1 : (List.replicate 3499 (0 : ℕ)).length < 3500 := by
    simp only [List.length_replicate]
    omega
  refine ⟨h1, (sample_requires_3500_rows _).1 h1, ?_⟩
  obtain ⟨out, ho, hl⟩ :=
    (sample_requires_3500_rows (List.replicate 3500 (0 : ℕ))).2
      (by simp only [List.length_replicate]; omega)
  rw [ho]
  simp [Except.map, hl]

/-- C5: the node list is exactly one node per bucket in bucket order followed
by one node per category in category order — 13 labels (10 work-hour buckets
plus 3 stress levels), so node count = bucket count + category count, and the
color list addresses the same 13 positions. -/
theorem sankey_node_list_structure (df : WorklifeDF)
    (cm : List (String × String)) (d : SankeyData)
    (h : (prepare_sankey_data df cm).2 = .ok d) :
    d.labels = bin_labels.map (fun l => l ++ " Hours") ++ stress_level_labels ∧
    d.labels.length = bin_labels.length + stress_level_order.length ∧
    d.labels.length = 13 ∧ d.node_colors.length = 13 := by
  obtain ⟨scs, hc, hlen, rfl⟩ := prepare_ok_inv h
  refine ⟨rfl, ?_, rfl, ?_⟩
  · simp [stress_level_labels]
  · simp [hlen, bin_labels, stress_level_order]

/-- C5 (witness): a concrete build has exactly 13 node labels. -/
theorem sankey_node_list_structure_witness :
    ((prepare_sankey_data ⟨[], none, none⟩ stress_color_mapping).2.map
        (fun d => d.labels.length)) = .ok 13 := by
  cases h : (prepare_sankey_data ⟨[], none, none⟩ stress_color_mapping).2 with
  | error e =>
    have hT : ((prepare_sankey_data ⟨[], none, none⟩
        stress_color_mapping).2).isOk = true := by rfl
    rw [h] at hT
    exact absurd hT (by simp [Except.isOk, Except.toBool])
  | ok d =>
    have hthm := sankey_node_list_structure _ _ d h
    simp [Except.map, hthm.2.2.1]

/-- C6: every emitted edge leaves a bucket node and enters a category node —
each source index is below the bucket count and each target index lies
between the bucket count (inclusive) and the total node count (exclusive). -/
theorem sankey_edge_index_ranges (df : WorklifeDF)
    (cm : List (String × String)) (d : SankeyData)
    (h : (prepare_sankey_data df cm).2 = .ok d) :
    (∀ x ∈ d.source, x < bin_labels.length) ∧
    (∀ x ∈ d.target, bin_labels.length ≤ x ∧
      x < bin_labels.length + stress_level_order.length) := by
  obtain ⟨scs, hc, hlen, rfl⟩ := prepare_ok_inv h
  constructor
  · intro x hx
    obtain ⟨g, hg, rfl⟩ := List.mem_map.1 hx
    exact (mem_value_counts.1 hg).1
  · intro x hx
    obtain ⟨g, hg, rfl⟩ := List.mem_map.1 hx
    have hs := (mem_value_counts.1 hg).2.1
    omega

/-- C6 (witness): on a concrete build every source index is below 10 and
every target index lies in `[10, 13)`. -/
theorem sankey_edge_index_ranges_witness :
    ((prepare_sankey_data ⟨[(5, "Low")], none, none⟩ stress_color_mapping).2.map
        (fun d => d.source.all (fun x => decide (x < bin_labels.length)) &&
          d.target.all (fun x => decide (bin_labels.length ≤ x ∧
            x < bin_labels.length + stress_level_order.length)))) = .ok true := by
  cases h : (prepare_sankey_data ⟨[(5, "Low")], none, none⟩
      stress_color_mapping).2 with
  | error e =>
    have hT : ((prepare_sankey_data ⟨[(5, "Low")], none, none⟩
        stress_color_mapping).2).isOk = true := by rfl
    rw [h] at hT
    exact absurd hT (by simp [Except.isOk, Except.toBool])
  | ok d =>
    have hthm := sankey_edge_index_ranges _ _ d h
    simp only [Except.map, Except.ok.injEq, Bool.and_eq_true, List.all_eq_true,
      decide_eq_true_eq]
    exact ⟨fun x hx => hthm.1 x hx, fun x hx => hthm.2 x hx⟩

/-- C1 (counterexample): on a record set holding the single record
`(5, "Low")` the build succeeds and its value array contains the entry `0` —
the grouped table lists every `(bucket, category)` pair, so pairs with no
matching records do produce edges, of weight 0. -/
theorem sankey_zero_weight_edge_exists :
    ((prepare_sankey_data ⟨[(5, "Low")], none, none⟩ stress_color_mapping).2.map
        (fun d => d.value.contains 0)) = .ok true := by
  rfl

/-- C1 (amended): the builder emits one edge for every `(bucket, category)`
pair of the cross product — `10 * 3` edges on every build — and an entry of
the value array is 0 exactly when its pair matches no record; in particular a
pair absent from the data still produces an edge, of weight 0. -/
theorem sankey_edges_cover_all_pairs (df : WorklifeDF)
    (cm : List (String × String)) (d : SankeyData)
    (h : (prepare_sankey_data df cm).2 = .ok d) :
    d.value.length = bin_labels.length * stress_level_order.length ∧
    (0 ∈ d.value ↔ ∃ b < bin_labels.length, ∃ s < stress_level_order.length,
      pairCount (srcCol df) (tgtCol df) b s = 0) := by
  obtain ⟨scs, hc, hlen, rfl⟩ := prepare_ok_inv h
  refine ⟨rfl, ?_⟩
  simp only [List.mem_map]
  constructor
  · rintro ⟨g, hg, h0⟩
    obtain ⟨h1, h2, h3⟩ := mem_value_counts.1 hg
    exact ⟨g.1, h1, g.2.1, h2, h3.symm.trans h0⟩
  · rintro ⟨b, hb, s, hs, hcnt⟩
    exact ⟨(b, s, pairCount (srcCol df) (tgtCol df) b s),
      mem_value_counts.2 ⟨hb, hs, rfl⟩, hcnt⟩

/-- C1 (witness): a concrete build emits exactly 30 edges. -/
theorem sankey_edges_cover_all_pairs_witness :
    ((prepare_sankey_data ⟨[(5, "Low")], none, none⟩ stress_color_mapping).2.map
        (fun d => d.value.length)) = .ok 30 := by
  cases h : (prepare_sankey_data ⟨[(5, "Low")], none, none⟩
      stress_color_mapping).2 with
  | error e =>
    have hT : ((prepare_sankey_data ⟨[(5, "Low")], none, none⟩
        stress_color_mapping).2).isOk = true := by rfl
    rw [h] at hT
    exact absurd hT (by simp [Except.isOk, Except.toBool])
  | ok d =>
    have hthm := (sankey_edges_cover_all_pairs _ _ d h).1
    simp only [Except.map, hthm]
    rfl

/-- C2: for every non-empty record set whose stress labels come from the
fixed enumeration (the spec's `Record` type), the build succeeds — a record
whose value matches no bucket is silently excluded, never an error — and the
sum of the emitted edge weights equals the number of records whose
`Work_Hours` value falls within some defined bucket. -/
theorem sankey_weight_sum_eq_bucketed_count (df : WorklifeDF)
    (hne : df.rows ≠ [])
    (hval : ∀ r ∈ df.rows, r.2 ∈ stress_level_order) :
    ∃ d, (prepare_sankey_data df stress_color_mapping).2 = Except.ok d ∧
      d.value.sum = df.rows.countP (fun r => (cutIndex bins r.1).isSome) := by
  have hc : colorsFor stress_level_labels stress_color_mapping =
      Except.ok ["#7ED957", "#FFC107", "#FF4C4C"] := rfl
  have hok : (prepare_sankey_data df stress_color_mapping).2 = Except.ok
      { labels := bin_labels.map (fun l => l ++ " Hours") ++ stress_level_labels
        node_colors := List.replicate bin_labels.length "#4A90E2" ++
          ["#7ED957", "#FFC107", "#FF4C4C"]
        source := (value_counts (srcCol df) (tgtCol df)).map (fun g => g.1)
        target := (value_counts (srcCol df) (tgtCol df)).map
          (fun g => g.2.1 + bin_labels.length)
        value := (value_counts (srcCol df) (tgtCol df)).map (fun g => g.2.2)
        link_colors := (value_counts (srcCol df) (tgtCol df)).map
          (fun g => linkColor g.2.1) } := by
    simp [prepare_sankey_data, hc, updateDF]
  refine ⟨_, hok, ?_⟩
  show ((value_counts (srcCol df) (tgtCol df)).map (fun g => g.2.2)).sum = _
  rw [value_counts_sum]
  have hzip : (srcCol df).zip (tgtCol df) =
      df.rows.map (fun r => (cutIndex bins r.1, catCode stress_level_order r.2)) := by
    simp [srcCol, tgtCol, List.zip_map']
  simp only [pairCount, hzip]
  rw [sum_pairCount bin_labels.length stress_level_order.length _
    (fun p hp k hk => ?_) (fun p hp k hk => ?_)]
  · rw [List.countP_map]
    refine List.countP_congr (fun r hr => ?_)
    have hcat := catCode_isSome (hval r hr)
    simp [Function.comp, hcat]
  · obtain ⟨r, hr, rfl⟩ := List.mem_map.1 hp
    simp only at hk
    have hlt := cutIndex_lt hk
    rw [show bins.length = 11 from rfl] at hlt
    rw [show bin_labels.length = 10 from rfl]
    omega
  · obtain ⟨r, hr, rfl⟩ := List.mem_map.1 hp
    simp only at hk
    exact catCode_lt hk

/-- C2 (witness): on the two-record set `[(5, "Low"), (200, "High")]` the
record with value 200 matches no bucket, the build succeeds, and the edge
weights sum to 1. -/
theorem sankey_weight_sum_eq_bucketed_count_witness :
    ((⟨[(5, "Low"), (200, "High")], none, none⟩ : WorklifeDF).rows ≠ []) ∧
    (∀ r ∈ (⟨[(5, "Low"), (200, "High")], none, none⟩ : WorklifeDF).rows,
      r.2 ∈ stress_level_order) ∧
    ((prepare_sankey_data ⟨[(5, "Low"), (200, "High")], none, none⟩
        stress_color_mapping).2.map (fun d => d.value.sum)) = .ok 1 := by
  have hne : (⟨[(5, "Low"), (200, "High")], none, none⟩ : WorklifeDF).rows ≠ [] := by
    simp
  have hval : ∀ r ∈ (⟨[(5, "Low"), (200, "High")], none, none⟩ : WorklifeDF).rows,
      r.2 ∈ stress_level_order := by decide
  obtain ⟨d, hd, hs⟩ := sankey_weight_sum_eq_bucketed_count _ hne hval
  refine ⟨hne, hval, ?_⟩
  rw [hd]
  simp only [Except.map, hs]
  rfl
